import Mathlib

/-
Verification of the obesity-prediction pipeline of this repository
(`predictor.py` and `app.py`) against its natural-language specification.

The embedding is shallow: pandas DataFrames become lists of rows, a row is
an association list from column names to values, Python floats become
rationals (`ℚ`), Python exceptions become `Except String`, and the opaque
pre-trained model becomes a record holding its optional declared feature
order and its per-row predict function.  Floating-point NaN is modelled by
a dedicated `Val.nan` constructor.
-/

set_option maxHeartbeats 1000000

/-- A Python scalar value as it appears in the user's input frame:
a number (Python int/float, modelled as `ℚ`), a string, or float NaN. -/
inductive Val where
  | num (q : ℚ)
  | str (s : String)
  | nan
deriving Repr, DecidableEq

/-- A DataFrame row: an association list from column names to values.
`pd.DataFrame([dict])` rows are modelled this way; lookups take the first
matching key. -/
abbrev Row : Type := List (String × Val)

/-- `row.get(k)` / `row[k]` lookup: first value stored under key `k`. -/
def getVal (r : Row) (k : String) : Option Val :=
  (List.find? (fun p => p.1 == k) r).map (fun p => p.2)

/-- Python truthiness of a scalar: numbers are truthy iff nonzero, strings
iff nonempty, and float NaN is truthy. -/
def Val.truthy : Val → Bool
  | Val.num q => q != 0
  | Val.str s => s != ""
  | Val.nan => true

/-- Truthiness of `row.get(k)`: a missing key (Python `None`) is falsy. -/
def truthyO : Option Val → Bool
  | none => false
  | some v => v.truthy

-- ---------------------------------------------------------------------
-- Text normalizer (`_strip_accents`, `_norm`)
-- ---------------------------------------------------------------------

/-- One character of `_strip_accents`: Unicode NFD decomposition followed by
removal of combining marks sends each precomposed Latin accented letter to
its base letter.  Modelled here for the Latin-1 accented letters (the only
accented characters in this application's vocabulary); every other
character is left unchanged. -/
def deaccentChar (c : Char) : Char :=
  match c with
  | 'á' | 'à' | 'â' | 'ã' | 'ä' => 'a'
  | 'Á' | 'À' | 'Â' | 'Ã' | 'Ä' => 'A'
  | 'é' | 'è' | 'ê' | 'ë' => 'e'
  | 'É' | 'È' | 'Ê' | 'Ë' => 'E'
  | 'í' | 'ì' | 'î' | 'ï' => 'i'
  | 'Í' | 'Ì' | 'Î' | 'Ï' => 'I'
  | 'ó' | 'ò' | 'ô' | 'õ' | 'ö' => 'o'
  | 'Ó' | 'Ò' | 'Ô' | 'Õ' | 'Ö' => 'O'
  | 'ú' | 'ù' | 'û' | 'ü' => 'u'
  | 'Ú' | 'Ù' | 'Û' | 'Ü' => 'U'
  | 'ç' => 'c'
  | 'Ç' => 'C'
  | 'ñ' => 'n'
  | 'Ñ' => 'N'
  | _ => c

/-- `_strip_accents`: remove accents from every character of the string. -/
def strip_accents (s : String) : String :=
  String.mk (s.data.map deaccentChar)

/-- Python `str.strip()` whitespace set. -/
def isPyWS (c : Char) : Bool :=
  c == ' ' || c == '\t' || c == '\n' || c == '\r' || c == '\x0b' || c == '\x0c'

/-- Python `str.strip()`: drop leading and trailing whitespace. -/
def py_strip (s : String) : String :=
  String.mk (((s.data.dropWhile isPyWS).reverse.dropWhile isPyWS).reverse)

/-- Python `str.lower()` (the vocabulary is ASCII after accent removal). -/
def py_lower (s : String) : String :=
  String.mk (s.data.map Char.toLower)

/-- `_norm`: `_strip_accents(s).strip().lower()`. -/
def pynorm (s : String) : String :=
  py_lower (py_strip (strip_accents s))

/-- `pat` is a prefix of `l` (character lists). -/
def ehPrefixo : List Char → List Char → Bool
  | [], _ => true
  | _ :: _, [] => false
  | a :: as, b :: bs => a == b && ehPrefixo as bs

/-- `pat` occurs as a contiguous sublist of `l`. -/
def subLista (pat : List Char) : List Char → Bool
  | [] => ehPrefixo pat []
  | c :: t => ehPrefixo pat (c :: t) || subLista pat t

/-- Python `sub in s` substring test. -/
def containsSubstr (s sub : String) : Bool :=
  subLista sub.data s.data

-- ---------------------------------------------------------------------
-- Fixed tables from predictor.py
-- ---------------------------------------------------------------------

/-- `TRADUCAO_TARGET`: translation of the model's raw labels to PT-BR. -/
def TRADUCAO_TARGET : List (String × String) :=
  [("Insufficient_Weight", "Peso Insuficiente"),
   ("Normal_Weight", "Peso Normal"),
   ("Overweight_Level_I", "Sobrepeso Nível I"),
   ("Overweight_Level_II", "Sobrepeso Nível II"),
   ("Obesity_Type_I", "Obesidade Tipo I"),
   ("Obesity_Type_II", "Obesidade Tipo II"),
   ("Obesity_Type_III", "Obesidade Tipo III")]

/-- `RENAME_MAP`: plural → singular column alias. -/
def RENAME_MAP : List (String × String) :=
  [("Consumo de Alimentos Altamente Calóricos", "Consumo de Alimento Altamente Calórico")]

/-- `SCHEMA_CATEGORIAS`: the categories the model expects, per column. -/
def SCHEMA_CATEGORIAS : List (String × List String) :=
  [("Gênero", ["Female", "Male"]),
   ("Histórico Familiar", ["No", "Yes"]),
   ("Consumo de Alimento Altamente Calórico", ["No", "Yes"]),
   ("Consumo de Alimento Entre Refeições", ["No", "Sometimes", "Frequently", "Always"]),
   ("Fumante", ["No", "Yes"]),
   ("Monitoramento de Consumo de Calorias", ["No", "Yes"]),
   ("Consumo de Álcool", ["No", "Sometimes", "Frequently", "Always"]),
   ("Meio de Transporte Utilizado",
    ["Automobile", "Bike", "Motorbike", "Public_Transportation", "Walking"])]

/-- `SCHEMA_NUMERICAS`: the numeric columns. -/
def SCHEMA_NUMERICAS : List String :=
  ["Idade", "Altura", "Peso", "Consumo de Vegetais em Refeições Principais",
   "Número de Refeições Principais", "Consumo de Água Diário",
   "Frequência de Atividade Física", "Tempo de Uso de Dispositivos Tecnológicos", "IMC"]

-- ---------------------------------------------------------------------
-- `_pt_to_en_value`
-- ---------------------------------------------------------------------

/-- `_pt_to_en_value`: translate a PT value to the EN vocabulary the model
expects, by column. -/
def pt_to_en_value (col : String) (val : String) : String :=
  let v := pynorm val
  if col ∈ ["Histórico Familiar", "Fumante", "Monitoramento de Consumo de Calorias",
            "Consumo de Alimento Altamente Calórico"] then
    (if v ∈ ["sim", "yes", "true", "1", "y"] then "Yes" else "No")
  else if col = "Consumo de Alimento Entre Refeições" then
    (if v ∈ ["sempre", "always"] then "Always"
     else if v ∈ ["frequente", "frequently"] then "Frequently"
     else if v ∈ ["as vezes", "às vezes", "sometimes"] then "Sometimes"
     else "No")
  else if col = "Consumo de Álcool" then
    (if v ∈ ["sempre", "always"] then "Always"
     else if v ∈ ["frequente", "frequently"] then "Frequently"
     else if v ∈ ["as vezes", "às vezes", "sometimes"] then "Sometimes"
     else "No")
  else if col = "Meio de Transporte Utilizado" then
    (if v ∈ ["carro", "automovel"] then "Automobile"
     else if v ∈ ["bicicleta", "bike"] then "Bike"
     else if v ∈ ["moto", "motocicleta"] then "Motorbike"
     else if containsSubstr v "transporte" then "Public_Transportation"
     else if containsSubstr v "pe" then "Walking"
     else "Automobile")
  else if col = "Gênero" then
    (if containsSubstr v "fem" then "Female" else "Male")
  else val

-- ---------------------------------------------------------------------
-- `classificar_imc` (app.py)
-- ---------------------------------------------------------------------

/-- `classificar_imc` from app.py: BMI → displayed bucket name. -/
def classificar_imc (imc : ℚ) : String :=
  if imc < 18.5 then "Peso Insuficiente"
  else if imc < 25 then "Peso Normal"
  else if imc < 27 then "Sobrepeso Nível I"
  else if imc < 30 then "Sobrepeso Nível II"
  else if imc < 35 then "Obesidade Tipo I"
  else if imc < 40 then "Obesidade Tipo II"
  else "Obesidade Tipo III"

/-- The seven bucket names of `classificar_imc`, in ascending BMI order. -/
def CATEGORIAS_IMC : List String :=
  ["Peso Insuficiente", "Peso Normal", "Sobrepeso Nível I", "Sobrepeso Nível II",
   "Obesidade Tipo I", "Obesidade Tipo II", "Obesidade Tipo III"]

/-- Index of the bucket `classificar_imc` selects (0..6). -/
def faixaIMC (imc : ℚ) : ℕ :=
  if imc < 18.5 then 0
  else if imc < 25 then 1
  else if imc < 27 then 2
  else if imc < 30 then 3
  else if imc < 35 then 4
  else if imc < 40 then 5
  else 6

-- ---------------------------------------------------------------------
-- Python float() and str() on scalars
-- ---------------------------------------------------------------------

/-- Digits of a decimal numeral to a natural number; `none` when the list
is empty or holds a non-digit. -/
def digitsToNat (l : List Char) : Option ℕ :=
  if l.isEmpty then none
  else l.foldl
    (fun acc c => acc.bind (fun n => if c.isDigit then some (10 * n + (c.toNat - 48)) else none))
    (some 0)

/-- Split a character list at the first dot. -/
def splitDot : List Char → List Char × Option (List Char)
  | [] => ([], none)
  | '.' :: t => ([], some t)
  | c :: t =>
    let p := splitDot t
    (c :: p.1, p.2)

/-- Unsigned decimal numeral (integer part, optional fraction) to `ℚ`. -/
def parseUnsigned (l : List Char) : Option ℚ :=
  match splitDot l with
  | (ip, none) => (digitsToNat ip).map (fun n => (n : ℚ))
  | (ip, some fp) =>
    if ip.isEmpty && fp.isEmpty then none
    else
      match (if ip.isEmpty then some 0 else digitsToNat ip),
            (if fp.isEmpty then some 0 else digitsToNat fp) with
      | some i, some f => some ((i : ℚ) + (f : ℚ) / ((10 : ℚ) ^ fp.length))
      | _, _ => none

/-- Python `float(str)` parsing: optional sign, decimal digits, optional
fractional part, surrounding whitespace ignored.  Exponents, underscores
and infinities are not modelled (this application's inputs never use
them). -/
def parseDec (s : String) : Option ℚ :=
  match (py_strip s).data with
  | '-' :: rest => (parseUnsigned rest).map (fun q => -q)
  | '+' :: rest => parseUnsigned rest
  | l => parseUnsigned l

/-- Error message raised by Python `float()` on an unparseable string. -/
def msgValueError : String := "ValueError: could not convert string to float"

/-- `pd.DataFrame` shape error raised by `prever_obesidade`. -/
def msgEntradaInvalida : String := "Entrada deve ser DataFrame, dict ou lista de dicts"

/-- Python float division by zero. -/
def msgZeroDiv : String := "ZeroDivisionError: float division by zero"

/-- Missing-column lookup on a DataFrame. -/
def msgKeyError : String := "KeyError: coluna ausente no DataFrame"

/-- `round()` applied to a non-numeric value. -/
def msgTypeError : String := "TypeError: round aplicado a valor nao numerico"

/-- Python `float(v)`: numbers pass through, NaN stays NaN (`ok none`),
strings are parsed (the literal "nan" parses to NaN), anything else
raises `ValueError`. -/
def pyFloatE : Val → Except String (Option ℚ)
  | Val.num q => Except.ok (some q)
  | Val.nan => Except.ok none
  | Val.str s =>
    if py_lower (py_strip s) = "nan" then Except.ok none
    else
      match parseDec s with
      | some q => Except.ok (some q)
      | none => Except.error msgValueError

/-- Python `str()` of a scalar.  Strings pass through and NaN prints as
"nan".  Numeric rendering differs from Python (which always prints floats
with a decimal point); no claim exercises `str()` of a numeric value. -/
def Val.pyStr : Val → String
  | Val.str s => s
  | Val.nan => "nan"
  | Val.num q => if q.den = 1 then toString q.num else toString q.num ++ "/" ++ toString q.den

-- ---------------------------------------------------------------------
-- Derived-metric calculator (`calcular_imc`, `calcular_estilo`)
-- ---------------------------------------------------------------------

/-- The per-row lambda of `calcular_imc`:
`float(r["Peso"]) / float(r["Altura"])**2 if r.get("Peso") and r.get("Altura") else 0.0`.
Division by a zero divisor raises; a NaN operand yields NaN. -/
def imcRow (r : Row) : Except String Val :=
  match getVal r "Peso", getVal r "Altura" with
  | some p, some a =>
    if p.truthy && a.truthy then
      match pyFloatE p with
      | Except.error s => Except.error s
      | Except.ok p? =>
        match pyFloatE a with
        | Except.error s => Except.error s
        | Except.ok a? =>
          match a? with
          | some aq =>
            if aq = 0 then Except.error msgZeroDiv
            else
              match p? with
              | some pq => Except.ok (Val.num (pq / aq ^ 2))
              | none => Except.ok Val.nan
          | none => Except.ok Val.nan
    else Except.ok (Val.num 0)
  | _, _ => Except.ok (Val.num 0)

/-- `cond_atividade`: `float(row.get("Frequência de Atividade Física", 0)) >= 3`
(a NaN comparison is false). -/
def cond_atividade (r : Row) : Except String Bool :=
  (pyFloatE ((getVal r "Frequência de Atividade Física").getD (Val.num 0))).map
    (fun q? => match q? with | some q => decide (3 ≤ q) | none => false)

/-- `cond_vegetais`: `float(row.get("Consumo de Vegetais em Refeições Principais", 0)) >= 3`. -/
def cond_vegetais (r : Row) : Except String Bool :=
  (pyFloatE ((getVal r "Consumo de Vegetais em Refeições Principais").getD (Val.num 0))).map
    (fun q? => match q? with | some q => decide (3 ≤ q) | none => false)

/-- `cond_agua`: `float(row.get("Consumo de Água Diário", 0)) >= 2.0`. -/
def cond_agua (r : Row) : Except String Bool :=
  (pyFloatE ((getVal r "Consumo de Água Diário").getD (Val.num 0))).map
    (fun q? => match q? with | some q => decide (2 ≤ q) | none => false)

/-- `cond_calorico`: the normalized high-calorie-food flag is not one of
the affirmative tokens `["yes", "sim", "true", "1", "y"]`. -/
def cond_calorico (r : Row) : Bool :=
  !(["yes", "sim", "true", "1", "y"].contains
      (pynorm (Val.pyStr ((getVal r "Consumo de Alimento Altamente Calórico").getD (Val.str "")))))

/-- The per-row `avaliar` of `calcular_estilo`. -/
def estiloRow (r : Row) : Except String String :=
  match cond_atividade r with
  | Except.error s => Except.error s
  | Except.ok ca =>
    match cond_vegetais r with
    | Except.error s => Except.error s
    | Except.ok cv =>
      match cond_agua r with
      | Except.error s => Except.error s
      | Except.ok cg =>
        Except.ok (if ca && cv && cond_calorico r && cg then "Saudável" else "Não Saudável")

/-- Row-wise traversal of a frame under `Except` (models `df.apply(..., axis=1)`
together with the column assignment). -/
def mapEx {α β : Type} (f : α → Except String β) : List α → Except String (List β)
  | [] => Except.ok []
  | x :: xs =>
    match f x with
    | Except.error e => Except.error e
    | Except.ok y =>
      match mapEx f xs with
      | Except.error e => Except.error e
      | Except.ok ys => Except.ok (y :: ys)

/-- `k in df.columns`: some row carries the key. -/
def temColuna (df : List Row) (k : String) : Bool :=
  df.any (fun r => (getVal r k).isSome)

/-- One row of `calcular_imc`: skip when the frame already has the column
(`b = true`), otherwise append the computed BMI. -/
def imcRowF (b : Bool) (r : Row) : Except String Row :=
  if b then Except.ok r
  else (imcRow r).map (fun v => r ++ [("IMC", v)])

/-- `calcular_imc`: add the "IMC" column when absent from the frame. -/
def calcular_imc (df : List Row) : Except String (List Row) :=
  if temColuna df "IMC" then Except.ok df
  else mapEx (imcRowF false) df

/-- One row of `calcular_estilo`: skip when the frame already has the
column, otherwise append the computed lifestyle label. -/
def estiloRowF (b : Bool) (r : Row) : Except String Row :=
  if b then Except.ok r
  else (estiloRow r).map (fun s => r ++ [("Estilo de vida saudável", Val.str s)])

/-- `calcular_estilo`: add the lifestyle column when absent. -/
def calcular_estilo (df : List Row) : Except String (List Row) :=
  if temColuna df "Estilo de vida saudável" then Except.ok df
  else mapEx (estiloRowF false) df

-- ---------------------------------------------------------------------
-- Schema normalizer (`_renomear_colunas`, `_normalizar_categoricos`,
-- `_aplicar_schema`)
-- ---------------------------------------------------------------------

/-- `_renomear_colunas` on one row: `df.rename(columns=RENAME_MAP)`. -/
def renomearRow (r : Row) : Row :=
  r.map (fun p =>
    match List.find? (fun q => q.1 == p.1) RENAME_MAP with
    | some q => (q.2, p.2)
    | none => p)

/-- `df[col].apply(lambda x: _pt_to_en_value(col, x))` on one row.  The
subsequent `pd.Categorical(..., categories=cats)` cast is the identity
here because `_pt_to_en_value` always returns a member of the column's
category set for schema columns (proved below for claim C5). -/
def aplicarCategorico (col : String) (r : Row) : Row :=
  r.map (fun p => if p.1 = col then (p.1, Val.str (pt_to_en_value col (Val.pyStr p.2))) else p)

/-- `pd.to_numeric(..., errors="coerce").astype(float)` on one value:
numbers pass, parseable strings parse, anything else becomes NaN. -/
def toNumericVal : Val → Val
  | Val.num q => Val.num q
  | Val.nan => Val.nan
  | Val.str s =>
    match parseDec s with
    | some q => Val.num q
    | none => Val.nan

/-- Numeric coercion of one declared numeric column on one row. -/
def aplicarNumerico (col : String) (r : Row) : Row :=
  r.map (fun p => if p.1 = col then (p.1, toNumericVal p.2) else p)

/-- `_aplicar_schema` on one row: normalize the categorical columns, then
coerce the numeric columns.  The source's `if col in df.columns` guards
are subsumed: mapping a row that lacks the key is the identity. -/
def aplicarSchemaRow (r : Row) : Row :=
  SCHEMA_NUMERICAS.foldl (fun acc c => aplicarNumerico c acc)
    (SCHEMA_CATEGORIAS.foldl (fun acc p => aplicarCategorico p.1 acc) r)

-- ---------------------------------------------------------------------
-- Prediction adapter (`prever_obesidade`)
-- ---------------------------------------------------------------------

/-- The loaded model artifact: its optional declared feature-name order
(`feature_names_in_`) and its per-row predict operation (the batch
`model.predict` returns one label per row in input order; `str(p)` of the
raw output is its string form).  `carregar_modelo` (reading the artifact
from disk) is modelled by passing the already-loaded model. -/
structure Modelo where
  feature_names : Option (List String)
  predict : Row → String

/-- `df_proc[feature_names]` on one row: select the named columns in
order; a missing column is a lookup failure. -/
def selecionarColunas (fs : List String) (r : Row) : Except String Row :=
  mapEx (fun c =>
    match getVal r c with
    | some v => Except.ok (c, v)
    | none => Except.error msgKeyError) fs

/-- Column selection for the whole frame, skipped when the model declares
no feature order. -/
def ordenarColunas (m : Modelo) (df : List Row) : Except String (List Row) :=
  match m.feature_names with
  | some fs => mapEx (selecionarColunas fs) df
  | none => Except.ok df

/-- Column selection on a single row (the per-row view of `ordenarColunas`). -/
def ordenarRow (m : Modelo) (r : Row) : Except String Row :=
  match m.feature_names with
  | some fs => selecionarColunas fs r
  | none => Except.ok r

/-- `TRADUCAO_TARGET.get(str(p), str(p))`. -/
def traduzir (p : String) : String :=
  ((List.find? (fun q => q.1 == p) TRADUCAO_TARGET).map (fun q => q.2)).getD p

/-- Python `round()` to an integer: nearest, ties to even.  (Binary
floating point can shift an exact decimal tie; no claim depends on tie
behaviour.) -/
def roundHalfEven (x : ℚ) : ℤ :=
  if x - ⌊x⌋ < 1 / 2 then ⌊x⌋
  else if 1 / 2 < x - ⌊x⌋ then ⌊x⌋ + 1
  else if ⌊x⌋ % 2 = 0 then ⌊x⌋ else ⌊x⌋ + 1

/-- `round(v, 2)`: numbers round to two decimals, NaN stays NaN, a
non-numeric value raises `TypeError`. -/
def round2V : Val → Except String Val
  | Val.num q => Except.ok (Val.num ((roundHalfEven (q * 100) : ℚ) / 100))
  | Val.nan => Except.ok Val.nan
  | Val.str _ => Except.error msgTypeError

/-- One entry of the `resultados` list assembled by `prever_obesidade`. -/
structure Resultado where
  pred_label_raw : String
  pred_label_pt : String
  imc : Val
  estilo : Val
deriving Repr, DecidableEq

/-- Assembly of the i-th result from the i-th user row (post
`calcular_estilo`, pre-rename) and the i-th raw prediction. -/
def montarResultado (r : Row) (p : String) : Except String Resultado :=
  match getVal r "IMC" with
  | none => Except.error msgKeyError
  | some v =>
    match round2V v with
    | Except.error s => Except.error s
    | Except.ok iv =>
      match getVal r "Estilo de vida saudável" with
      | none => Except.error msgKeyError
      | some ev => Except.ok ⟨p, traduzir p, iv, ev⟩

/-- The argument of `prever_obesidade`: a DataFrame, a dict, a list of
dicts, or any other Python value (`other`). -/
inductive Entrada where
  | df (rows : List Row)
  | dict (r : Row)
  | list (rows : List Row)
  | other

/-- The return shape of `prever_obesidade`: a bare result dict when
exactly one result was produced, else the list. -/
inductive Saida where
  | single (r : Resultado)
  | batch (rs : List Resultado)
deriving Repr, DecidableEq

/-- The input-conversion prelude of `prever_obesidade`. -/
def toDf : Entrada → Except String (List Row)
  | Entrada.df rows => Except.ok rows
  | Entrada.dict r => Except.ok [r]
  | Entrada.list rows => Except.ok rows
  | Entrada.other => Except.error msgEntradaInvalida

/-- The body of `prever_obesidade` after input conversion: derived
metrics, rename, schema, column order, predict, result assembly. -/
def preverLinhas (m : Modelo) (df0 : List Row) : Except String (List Resultado) :=
  match calcular_imc df0 with
  | Except.error s => Except.error s
  | Except.ok df1 =>
    match calcular_estilo df1 with
    | Except.error s => Except.error s
    | Except.ok df2 =>
      match ordenarColunas m ((df2.map renomearRow).map aplicarSchemaRow) with
      | Except.error s => Except.error s
      | Except.ok dfP =>
        mapEx (fun pr => montarResultado pr.1 pr.2) (df2.zip (dfP.map m.predict))

/-- `prever_obesidade`. -/
def prever_obesidade (m : Modelo) (e : Entrada) : Except String Saida :=
  match toDf e with
  | Except.error s => Except.error s
  | Except.ok df0 =>
    match preverLinhas m df0 with
    | Except.error s => Except.error s
    | Except.ok rs =>
      Except.ok (match rs with
        | [r] => Saida.single r
        | _ => Saida.batch rs)

/-- The whole pipeline restricted to a single row; `b1`/`b2` record
whether the frame already had the "IMC" / lifestyle columns. -/
def preverRow (m : Modelo) (b1 b2 : Bool) (r : Row) : Except String Resultado :=
  match imcRowF b1 r with
  | Except.error s => Except.error s
  | Except.ok r1 =>
    match estiloRowF b2 r1 with
    | Except.error s => Except.error s
    | Except.ok r2 =>
      match ordenarRow m (aplicarSchemaRow (renomearRow r2)) with
      | Except.error s => Except.error s
      | Except.ok rP => montarResultado r2 (m.predict rP)

/-- The results carried by a `Saida`. -/
def saidaResultados : Saida → List Resultado
  | Saida.single r => [r]
  | Saida.batch rs => rs

/-- A stub model used in concrete witnesses: no declared feature order,
constant prediction "Normal_Weight". -/
def modeloNormal : Modelo :=
  ⟨none, fun _ => "Normal_Weight"⟩

/-- A stub model used in concrete counterexamples: no declared feature
order, constant prediction "Obesity_Type_I". -/
def modeloObesidade : Modelo :=
  ⟨none, fun _ => "Obesity_Type_I"⟩

/-- A concrete input row satisfying all four lifestyle conditions. -/
def linhaSaudavel : Row :=
  [("Frequência de Atividade Física", Val.num 3),
   ("Consumo de Vegetais em Refeições Principais", Val.num 3),
   ("Consumo de Água Diário", Val.num 2),
   ("Consumo de Alimento Altamente Calórico", Val.str "Não")]

/-- First row of the concrete batch used in the C8 witness. -/
def linhaA : Row :=
  [("IMC", Val.num 20), ("Estilo de vida saudável", Val.str "Saudável")]

/-- Second row of the concrete batch used in the C8 witness. -/
def linhaB : Row :=
  [("IMC", Val.num 31), ("Estilo de vida saudável", Val.str "Não Saudável")]

-- ---------------------------------------------------------------------
-- Helper lemmas
-- ---------------------------------------------------------------------

/-- Rounding an integer-valued BMI to two decimals returns it unchanged. -/
theorem round2V_int (n : ℤ) : round2V (Val.num (n : ℚ)) = Except.ok (Val.num (n : ℚ)) := by
  have hcast : ((n : ℚ) * 100) = ((n * 100 : ℤ) : ℚ) := by push_cast; ring
  have hdef : round2V (Val.num (n : ℚ)) =
      Except.ok (Val.num ((roundHalfEven ((n : ℚ) * 100) : ℚ) / 100)) := rfl
  rw [hdef]
  unfold roundHalfEven
  rw [hcast, Int.floor_intCast, sub_self, if_pos (by norm_num : (0 : ℚ) < 1 / 2)]
  simp only [Except.ok.injEq, Val.num.injEq]
  push_cast
  field_simp

-- ---------------------------------------------------------------------
-- Claim C6: BMI bucketing
-- ---------------------------------------------------------------------

/-- C6: `classificar_imc` is a total, non-overlapping, monotone partition
into the seven ordered buckets: every BMI value selects exactly one of the
seven category names, the selected name is the one at position `faixaIMC`
of the ordered bucket list, every BMI at or above 40 lands in the last
bucket, and the bucket index is monotone in the BMI. -/
theorem c6_particao_imc :
    (∀ b : ℚ, ∃! c, c ∈ CATEGORIAS_IMC ∧ classificar_imc b = c) ∧
    (∀ b : ℚ, faixaIMC b < 7 ∧ classificar_imc b = CATEGORIAS_IMC.getD (faixaIMC b) "") ∧
    (∀ b : ℚ, 40 ≤ b → classificar_imc b = "Obesidade Tipo III") ∧
    (∀ b1 b2 : ℚ, b1 ≤ b2 → faixaIMC b1 ≤ faixaIMC b2) := by
  refine ⟨?_, ?_, ?_, ?_⟩
  · intro b
    refine ⟨classificar_imc b, ⟨?_, rfl⟩, fun y hy => hy.2.symm⟩
    unfold classificar_imc
    split_ifs <;> simp [CATEGORIAS_IMC]
  · intro b
    constructor
    · unfold faixaIMC
      split_ifs <;> norm_num
    · unfold classificar_imc faixaIMC
      split_ifs <;> rfl
  · intro b hb
    unfold classificar_imc
    split_ifs <;> first | rfl | linarith
  · intro b1 b2 h
    unfold faixaIMC
    split_ifs <;> first | omega | linarith

/-- Witness for C6 at concrete inputs. -/
theorem c6_particao_imc_witness :
    classificar_imc 41 = "Obesidade Tipo III" ∧ faixaIMC 20 ≤ faixaIMC 30 :=
  ⟨c6_particao_imc.2.2.1 41 (by norm_num), c6_particao_imc.2.2.2 20 30 (by norm_num)⟩

-- ---------------------------------------------------------------------
-- Claim C5: normalized categorical values stay inside the category set
-- ---------------------------------------------------------------------

/-- C5: for every schema column and every input string, the value produced
by `_pt_to_en_value` belongs to that column's declared category set. -/
theorem c5_saida_no_conjunto :
    ∀ col cats, (col, cats) ∈ SCHEMA_CATEGORIAS →
      ∀ val : String, pt_to_en_value col val ∈ cats := by
  intro col cats h val
  fin_cases h <;> (simp only [pt_to_en_value]; split_ifs <;> simp_all)

/-- Witness for C5 at a concrete column and arbitrary-looking value. -/
theorem c5_saida_no_conjunto_witness :
    pt_to_en_value "Gênero" "qualquer coisa" ∈ ["Female", "Male"] :=
  c5_saida_no_conjunto "Gênero" ["Female", "Male"] (by decide) "qualquer coisa"

-- ---------------------------------------------------------------------
-- Claim C2 (corrected): idempotence of categorical normalization
-- ---------------------------------------------------------------------

/-- C2 counterexample: "Walking" is a canonical transport category, yet
normalizing it yields "Automobile", not "Walking" (likewise for
"Motorbike" and "Public_Transportation"): normalization is not idempotent
on the transport column. -/
theorem c2_contraexemplo :
    ("Meio de Transporte Utilizado",
      ["Automobile", "Bike", "Motorbike", "Public_Transportation", "Walking"]) ∈
        SCHEMA_CATEGORIAS ∧
    "Walking" ∈ ["Automobile", "Bike", "Motorbike", "Public_Transportation", "Walking"] ∧
    pt_to_en_value "Meio de Transporte Utilizado" "Walking" = "Automobile" ∧
    "Automobile" ≠ "Walking" := by
  decide

/-- C2 as amended: normalization is idempotent on the full category set of
every schema column except transport mode; there, "Automobile" and "Bike"
are fixed points while "Motorbike", "Public_Transportation" and "Walking"
all map to "Automobile". -/
theorem c2_idempotencia_corrigida :
    ∀ col cats val, (col, cats) ∈ SCHEMA_CATEGORIAS → val ∈ cats →
      (col ≠ "Meio de Transporte Utilizado" → pt_to_en_value col val = val) ∧
      (col = "Meio de Transporte Utilizado" →
        (val ∈ ["Automobile", "Bike"] → pt_to_en_value col val = val) ∧
        (val ∈ ["Motorbike", "Public_Transportation", "Walking"] →
          pt_to_en_value col val = "Automobile")) := by
  intro col cats val h hv
  fin_cases h <;> fin_cases hv <;> decide

/-- Witness for C2 (amended) at a concrete column and value. -/
theorem c2_idempotencia_corrigida_witness :
    pt_to_en_value "Fumante" "Yes" = "Yes" :=
  (c2_idempotencia_corrigida "Fumante" ["No", "Yes"] "Yes" (by decide) (by decide)).1 (by decide)

-- ---------------------------------------------------------------------
-- Claim C7 (corrected): frequency-field mapping
-- ---------------------------------------------------------------------

/-- C7 counterexample: the normalized token of "quase sempre" contains
"sempre", yet both frequency fields map it to "No", not "Always": the
checks are exact equalities, not containment. -/
theorem c7_contraexemplo :
    containsSubstr (pynorm "quase sempre") "sempre" = true ∧
    pt_to_en_value "Consumo de Álcool" "quase sempre" = "No" ∧
    pt_to_en_value "Consumo de Alimento Entre Refeições" "quase sempre" = "No" := by
  decide

/-- C7 as amended: for the two frequency fields the checks are applied in
order against exact normalized tokens — equality with "sempre"/"always"
gives "Always", then "frequente"/"frequently" gives "Frequently", then
"as vezes"/"às vezes"/"sometimes" gives "Sometimes", else "No". -/
theorem c7_frequencia_corrigida :
    ∀ col val, col ∈ ["Consumo de Alimento Entre Refeições", "Consumo de Álcool"] →
      (pynorm val ∈ ["sempre", "always"] → pt_to_en_value col val = "Always") ∧
      (pynorm val ∉ ["sempre", "always"] →
        pynorm val ∈ ["frequente", "frequently"] → pt_to_en_value col val = "Frequently") ∧
      (pynorm val ∉ ["sempre", "always"] → pynorm val ∉ ["frequente", "frequently"] →
        pynorm val ∈ ["as vezes", "às vezes", "sometimes"] →
        pt_to_en_value col val = "Sometimes") ∧
      (pynorm val ∉ ["sempre", "always"] → pynorm val ∉ ["frequente", "frequently"] →
        pynorm val ∉ ["as vezes", "às vezes", "sometimes"] →
        pt_to_en_value col val = "No") := by
  intro col val hc
  fin_cases hc <;>
    (simp only [pt_to_en_value]
     rw [if_neg (by decide)]
     refine ⟨fun h1 => ?_, fun h1 h2 => ?_, fun h1 h2 h3 => ?_, fun h1 h2 h3 => ?_⟩ <;>
       simp_all)

/-- Witness for C7 (amended) at a concrete field and value. -/
theorem c7_frequencia_corrigida_witness :
    pt_to_en_value "Consumo de Álcool" "Sempre" = "Always" :=
  (c7_frequencia_corrigida "Consumo de Álcool" "Sempre" (by decide)).1 (by decide)

-- ---------------------------------------------------------------------
-- Helper lemmas for the prediction adapter
-- ---------------------------------------------------------------------

/-- A successfully assembled result carries the raw prediction and its
translation. -/
theorem montarResultado_ok_pt (r : Row) (p : String) (res : Resultado)
    (h : montarResultado r p = Except.ok res) :
    res.pred_label_raw = p ∧ res.pred_label_pt = traduzir p := by
  unfold montarResultado at h
  split at h
  · simp at h
  · split at h
    · simp at h
    · split at h
      · simp at h
      · simp only [Except.ok.injEq] at h
        subst h
        exact ⟨rfl, rfl⟩

/-- Every element of a successful `mapEx` image comes from some element of
the domain list. -/
theorem mapEx_ok_mem {α β : Type} (f : α → Except String β) (l : List α) (ys : List β)
    (h : mapEx f l = Except.ok ys) :
    ∀ y ∈ ys, ∃ x ∈ l, f x = Except.ok y := by
  induction l generalizing ys with
  | nil =>
    unfold mapEx at h
    simp only [Except.ok.injEq] at h
    subst h
    intro y hy
    simp at hy
  | cons a as ih =>
    unfold mapEx at h
    split at h
    · simp at h
    · rename_i y1 hfa
      split at h
      · simp at h
      · rename_i ys1 hrec
        simp only [Except.ok.injEq] at h
        subst h
        intro y hy
        rcases List.mem_cons.mp hy with h1 | h2
        · exact ⟨a, List.mem_cons_self a as, h1 ▸ hfa⟩
        · rcases ih ys1 hrec y h2 with ⟨x, hx, hfx⟩
          exact ⟨x, List.mem_cons_of_mem a hx, hfx⟩

/-- Successful prediction decomposes into input conversion, the row
pipeline, and the single-vs-batch packaging. -/
theorem prever_ok_results (m : Modelo) (e : Entrada) (out : Saida)
    (h : prever_obesidade m e = Except.ok out) :
    ∃ df0 rs, toDf e = Except.ok df0 ∧ preverLinhas m df0 = Except.ok rs ∧
      saidaResultados out = rs := by
  unfold prever_obesidade at h
  split at h
  · simp at h
  · rename_i df0 hdf
    split at h
    · simp at h
    · rename_i rs hrs
      simp only [Except.ok.injEq] at h
      subst h
      refine ⟨df0, rs, hdf, hrs, ?_⟩
      match rs with
      | [] => rfl
      | [r] => rfl
      | a :: b :: t => rfl

/-- Every result of a successful row pipeline has its translated label
equal to the translation of its raw label. -/
theorem preverLinhas_ok_pt (m : Modelo) (df0 : List Row) (rs : List Resultado)
    (h : preverLinhas m df0 = Except.ok rs) :
    ∀ res ∈ rs, res.pred_label_pt = traduzir res.pred_label_raw := by
  unfold preverLinhas at h
  split at h
  · simp at h
  · split at h
    · simp at h
    · split at h
      · simp at h
      · intro res hres
        rcases mapEx_ok_mem _ _ _ h res hres with ⟨pr, _, hok⟩
        rcases montarResultado_ok_pt pr.1 pr.2 res hok with ⟨h1, h2⟩
        rw [h2, h1]

-- ---------------------------------------------------------------------
-- Claim C10: raw-label translation never fails
-- ---------------------------------------------------------------------

/-- C10: translating the raw model output never fails — each of the seven
known English class labels maps to its fixed Portuguese label, any other
raw value passes through unchanged, and every Result produced by
`prever_obesidade` carries exactly this translation of its raw label. -/
theorem c10_traducao_total :
    (∀ p pt, (p, pt) ∈ TRADUCAO_TARGET → traduzir p = pt) ∧
    (∀ p : String, p ∉ TRADUCAO_TARGET.map Prod.fst → traduzir p = p) ∧
    (∀ (m : Modelo) (e : Entrada) (out : Saida) (res : Resultado),
      prever_obesidade m e = Except.ok out → res ∈ saidaResultados out →
      res.pred_label_pt = traduzir res.pred_label_raw) := by
  refine ⟨?_, ?_, ?_⟩
  · intro p pt h
    fin_cases h <;> rfl
  · intro p hp
    unfold traduzir
    rw [List.find?_eq_none.mpr ?_]
    · rfl
    · intro q hq
      simp only [Bool.not_eq_true, beq_eq_false_iff_ne]
      exact fun hq1 => hp (List.mem_map.mpr ⟨q, hq, hq1⟩)
  · intro m e out res h hmem
    rcases prever_ok_results m e out h with ⟨df0, rs, _, hlin, hsr⟩
    exact preverLinhas_ok_pt m df0 rs hlin res (hsr ▸ hmem)

/-- Witness for C10 at a known and an unknown raw label. -/
theorem c10_traducao_total_witness :
    traduzir "Obesity_Type_III" = "Obesidade Tipo III" ∧
    traduzir "classe desconhecida" = "classe desconhecida" :=
  ⟨c10_traducao_total.1 "Obesity_Type_III" "Obesidade Tipo III" (by decide),
   c10_traducao_total.2.1 "classe desconhecida" (by decide)⟩

-- ---------------------------------------------------------------------
-- Claim C1 (corrected): no clinical override in the code
-- ---------------------------------------------------------------------

/-- C1 counterexample: a row with BMI 22 (below 25) whose model output
translates to "Obesidade Tipo I" (which contains "Obesidade") keeps the
label "Obesidade Tipo I" — it is not downgraded to "Sobrepeso Nível II":
`prever_obesidade` applies no clinical override. -/
theorem c1_contraexemplo :
    prever_obesidade modeloObesidade
        (Entrada.dict [("IMC", Val.num 22), ("Estilo de vida saudável", Val.str "Não Saudável")]) =
      Except.ok (Saida.single
        ⟨"Obesity_Type_I", "Obesidade Tipo I", Val.num 22, Val.str "Não Saudável"⟩) ∧
    (22 : ℚ) < 25 ∧
    containsSubstr "Obesidade Tipo I" "Obesidade" = true ∧
    "Obesidade Tipo I" ≠ "Sobrepeso Nível II" := by
  refine ⟨?_, by norm_num, by decide, by decide⟩
  have h22 : round2V (Val.num 22) = Except.ok (Val.num 22) := by
    have := round2V_int 22
    norm_num at this
    exact this
  simp [prever_obesidade, toDf, preverLinhas, calcular_imc, calcular_estilo, temColuna,
    getVal, mapEx, ordenarColunas, aplicarSchemaRow, SCHEMA_NUMERICAS, SCHEMA_CATEGORIAS,
    aplicarCategorico, aplicarNumerico, renomearRow, RENAME_MAP, montarResultado, h22,
    traduzir, TRADUCAO_TARGET, toNumericVal, modeloObesidade, List.find?]

/-- C1 as amended: no clinical override is applied — for every input and
every produced Result, the final human-facing label is exactly the
translation of the raw model output, regardless of the row's BMI.  (The
second half of the original claim — rows with BMI at or above 25 keep the
translated category — holds; the below-25 downgrade does not exist.) -/
theorem c1_sem_override :
    ∀ (m : Modelo) (e : Entrada) (out : Saida) (res : Resultado),
      prever_obesidade m e = Except.ok out → res ∈ saidaResultados out →
      res.pred_label_pt = traduzir res.pred_label_raw := by
  intro m e out res h hmem
  rcases prever_ok_results m e out h with ⟨df0, rs, _, hlin, hsr⟩
  exact preverLinhas_ok_pt m df0 rs hlin res (hsr ▸ hmem)

/-- Witness for C1 (amended): a concrete run whose BMI is 30 keeps the
translated label. -/
theorem c1_sem_override_witness :
    (⟨"Normal_Weight", "Peso Normal", Val.num 30, Val.str "X"⟩ : Resultado).pred_label_pt =
      traduzir (⟨"Normal_Weight", "Peso Normal", Val.num 30, Val.str "X"⟩ : Resultado).pred_label_raw := by
  refine c1_sem_override modeloNormal
    (Entrada.dict [("IMC", Val.num 30), ("Estilo de vida saudável", Val.str "X")])
    (Saida.single ⟨"Normal_Weight", "Peso Normal", Val.num 30, Val.str "X"⟩) _ ?_ ?_
  · have h30 : round2V (Val.num 30) = Except.ok (Val.num 30) := by
      have := round2V_int 30
      norm_num at this
      exact this
    simp [prever_obesidade, toDf, preverLinhas, calcular_imc, calcular_estilo, temColuna,
      getVal, mapEx, ordenarColunas, aplicarSchemaRow, SCHEMA_NUMERICAS, SCHEMA_CATEGORIAS,
      aplicarCategorico, aplicarNumerico, renomearRow, RENAME_MAP, montarResultado, h30,
      traduzir, TRADUCAO_TARGET, toNumericVal, modeloNormal, List.find?]
  · simp [saidaResultados]

-- ---------------------------------------------------------------------
-- Claim C3: BMI computation and its degradation policy
-- ---------------------------------------------------------------------

/-- C3: on a row without a BMI column, `calcular_imc` appends
weight / height² when both are truthy numbers, and appends exactly 0.0
(raising no division error) when weight or height is missing or falsy. -/
theorem c3_calculo_imc :
    ∀ r : Row, getVal r "IMC" = none →
      (∀ w h : ℚ, getVal r "Peso" = some (Val.num w) → w ≠ 0 →
        getVal r "Altura" = some (Val.num h) → h ≠ 0 →
        calcular_imc [r] = Except.ok [r ++ [("IMC", Val.num (w / h ^ 2))]]) ∧
      ((truthyO (getVal r "Peso") = false ∨ truthyO (getVal r "Altura") = false) →
        calcular_imc [r] = Except.ok [r ++ [("IMC", Val.num 0)]]) := by
  intro r hno
  have htc : temColuna [r] "IMC" = false := by simp [temColuna, hno]
  constructor
  · intro w h hw hwne hh hhne
    have himc : imcRow r = Except.ok (Val.num (w / h ^ 2)) := by
      unfold imcRow
      rw [hw, hh]
      simp [Val.truthy, pyFloatE, hwne, hhne]
    simp [calcular_imc, htc, mapEx, imcRowF, himc, Except.map]
  · intro hfalse
    have himc : imcRow r = Except.ok (Val.num 0) := by
      unfold imcRow
      cases hp : getVal r "Peso" with
      | none => rfl
      | some vp =>
        cases ha : getVal r "Altura" with
        | none => rfl
        | some va =>
          rcases hfalse with hf | hf
          · rw [hp] at hf
            simp only [truthyO] at hf
            simp [hf]
          · rw [ha] at hf
            simp only [truthyO] at hf
            simp [hf]
    simp [calcular_imc, htc, mapEx, imcRowF, himc, Except.map]

/-- Witness for C3: a concrete full row and a concrete falsy-weight row. -/
theorem c3_calculo_imc_witness :
    calcular_imc [[("Peso", Val.num 70), ("Altura", Val.num 2)]] =
      Except.ok [[("Peso", Val.num 70), ("Altura", Val.num 2), ("IMC", Val.num (70 / 2 ^ 2))]] ∧
    calcular_imc [[("Peso", Val.num 0), ("Altura", Val.num 2)]] =
      Except.ok [[("Peso", Val.num 0), ("Altura", Val.num 2), ("IMC", Val.num 0)]] := by
  constructor
  · exact (c3_calculo_imc [("Peso", Val.num 70), ("Altura", Val.num 2)] rfl).1
      70 2 rfl (by norm_num) rfl (by norm_num)
  · exact (c3_calculo_imc [("Peso", Val.num 0), ("Altura", Val.num 2)] rfl).2 (Or.inl rfl)

-- ---------------------------------------------------------------------
-- Claim C4: lifestyle label
-- ---------------------------------------------------------------------

/-- C4: on a row without a lifestyle column, `calcular_estilo` appends the
computed label, which is "Saudável" iff all four conditions hold — at
least 3 activity days, at least 3 vegetable portions, at least 2.0 liters
of water, and a high-calorie flag whose normalization is not an
affirmative token — and is "Não Saudável" otherwise (so flipping any
single condition flips the label). -/
theorem c4_estilo_vida :
    ∀ (r : Row) (lab : String), getVal r "Estilo de vida saudável" = none →
      estiloRow r = Except.ok lab →
      calcular_estilo [r] = Except.ok [r ++ [("Estilo de vida saudável", Val.str lab)]] ∧
      (lab = "Saudável" ↔
        cond_atividade r = Except.ok true ∧ cond_vegetais r = Except.ok true ∧
        cond_agua r = Except.ok true ∧ cond_calorico r = true) ∧
      (lab = "Saudável" ∨ lab = "Não Saudável") := by
  intro r lab hno hrow
  have htc : temColuna [r] "Estilo de vida saudável" = false := by simp [temColuna, hno]
  refine ⟨?_, ?_⟩
  · simp [calcular_estilo, htc, mapEx, estiloRowF, hrow, Except.map]
  · unfold estiloRow at hrow
    split at hrow
    · simp at hrow
    · rename_i ca hca
      split at hrow
      · simp at hrow
      · rename_i cv hcv
        split at hrow
        · simp at hrow
        · rename_i cg hcg
          simp only [Except.ok.injEq] at hrow
          subst hrow
          cases hb : (ca && cv && cond_calorico r && cg) with
          | true =>
            have hparts := hb
            simp only [Bool.and_eq_true] at hparts
            rcases hparts with ⟨⟨⟨ha1, ha2⟩, ha3⟩, ha4⟩
            subst ha1
            subst ha2
            subst ha4
            exact ⟨⟨fun _ => ⟨hca, hcv, hcg, ha3⟩, fun _ => rfl⟩, Or.inl rfl⟩
          | false =>
            refine ⟨⟨fun hcontra => absurd hcontra (by decide), fun hall => ?_⟩, Or.inr rfl⟩
            rcases hall with ⟨h1, h2, h3, h4⟩
            rw [hca] at h1
            rw [hcv] at h2
            rw [hcg] at h3
            simp only [Except.ok.injEq] at h1 h2 h3
            subst h1
            subst h2
            subst h3
            simp [h4] at hb

/-- Witness for C4: a concrete healthy row. -/
theorem c4_estilo_vida_witness :
    calcular_estilo [linhaSaudavel] =
      Except.ok [linhaSaudavel ++ [("Estilo de vida saudável", Val.str "Saudável")]] := by
  have hrow : estiloRow linhaSaudavel = Except.ok "Saudável" := by
    have h1 : pynorm "Não" = "nao" := by decide
    simp [estiloRow, cond_atividade, cond_vegetais, cond_agua, cond_calorico, getVal,
      pyFloatE, Val.pyStr, Except.map, List.find?, h1, linhaSaudavel]
  exact (c4_estilo_vida linhaSaudavel "Saudável" rfl hrow).1

-- ---------------------------------------------------------------------
-- Error analysis for claim C9
-- ---------------------------------------------------------------------

/-- A failing `Except.map` fails with the error of its argument. -/
theorem exceptMap_error {α β : Type} (x : Except String α) (f : α → β) (s : String)
    (h : Except.map f x = Except.error s) : x = Except.error s := by
  cases x with
  | error e => simpa [Except.map] using h
  | ok a => simp [Except.map] at h

/-- `float()` fails only with the ValueError message. -/
theorem pyFloatE_error (v : Val) (s : String) (h : pyFloatE v = Except.error s) :
    s = msgValueError := by
  cases v with
  | num q => simp [pyFloatE] at h
  | nan => simp [pyFloatE] at h
  | str t =>
    simp only [pyFloatE] at h
    split at h
    · simp at h
    · split at h
      · simp at h
      · simp only [Except.error.injEq] at h
        exact h.symm

/-- The BMI lambda fails only with a ValueError or a ZeroDivisionError. -/
theorem imcRow_error (r : Row) (s : String) (h : imcRow r = Except.error s) :
    s = msgValueError ∨ s = msgZeroDiv := by
  unfold imcRow at h
  split at h
  · split at h
    · split at h
      · rename_i hp
        simp only [Except.error.injEq] at h
        subst h
        exact Or.inl (pyFloatE_error _ _ hp)
      · split at h
        · rename_i ha
          simp only [Except.error.injEq] at h
          subst h
          exact Or.inl (pyFloatE_error _ _ ha)
        · split at h
          · split at h
            · simp only [Except.error.injEq] at h
              exact Or.inr h.symm
            · split at h
              · simp at h
              · simp at h
          · simp at h
    · simp at h
  · simp at h

/-- `cond_atividade` fails only with a ValueError. -/
theorem cond_atividade_error (r : Row) (s : String)
    (h : cond_atividade r = Except.error s) : s = msgValueError :=
  pyFloatE_error _ _ (exceptMap_error _ _ _ h)

/-- `cond_vegetais` fails only with a ValueError. -/
theorem cond_vegetais_error (r : Row) (s : String)
    (h : cond_vegetais r = Except.error s) : s = msgValueError :=
  pyFloatE_error _ _ (exceptMap_error _ _ _ h)

/-- `cond_agua` fails only with a ValueError. -/
theorem cond_agua_error (r : Row) (s : String)
    (h : cond_agua r = Except.error s) : s = msgValueError :=
  pyFloatE_error _ _ (exceptMap_error _ _ _ h)

/-- The lifestyle lambda fails only with a ValueError. -/
theorem estiloRow_error (r : Row) (s : String) (h : estiloRow r = Except.error s) :
    s = msgValueError := by
  unfold estiloRow at h
  split at h
  · rename_i he
    simp only [Except.error.injEq] at h
    subst h
    exact cond_atividade_error _ _ he
  · split at h
    · rename_i he
      simp only [Except.error.injEq] at h
      subst h
      exact cond_vegetais_error _ _ he
    · split at h
      · rename_i he
        simp only [Except.error.injEq] at h
        subst h
        exact cond_agua_error _ _ he
      · simp at h

/-- A failing `mapEx` exposes a failing element. -/
theorem mapEx_error {α β : Type} (f : α → Except String β) (l : List α) (s : String)
    (h : mapEx f l = Except.error s) : ∃ x ∈ l, f x = Except.error s := by
  induction l with
  | nil =>
    unfold mapEx at h
    simp at h
  | cons a as ih =>
    unfold mapEx at h
    split at h
    · rename_i he
      simp only [Except.error.injEq] at h
      subst h
      exact ⟨a, List.mem_cons_self a as, he⟩
    · split at h
      · rename_i he
        simp only [Except.error.injEq] at h
        subst h
        rcases ih he with ⟨x, hx, hfx⟩
        exact ⟨x, List.mem_cons_of_mem a hx, hfx⟩
      · simp at h

/-- `calcular_imc` fails only with a ValueError or ZeroDivisionError. -/
theorem calcular_imc_error (df : List Row) (s : String)
    (h : calcular_imc df = Except.error s) : s = msgValueError ∨ s = msgZeroDiv := by
  unfold calcular_imc at h
  split at h
  · simp at h
  · rcases mapEx_error _ _ _ h with ⟨r, _, hr⟩
    unfold imcRowF at hr
    rw [if_neg (by simp)] at hr
    exact imcRow_error _ _ (exceptMap_error _ _ _ hr)

/-- `calcular_estilo` fails only with a ValueError. -/
theorem calcular_estilo_error (df : List Row) (s : String)
    (h : calcular_estilo df = Except.error s) : s = msgValueError := by
  unfold calcular_estilo at h
  split at h
  · simp at h
  · rcases mapEx_error _ _ _ h with ⟨r, _, hr⟩
    unfold estiloRowF at hr
    rw [if_neg (by simp)] at hr
    exact estiloRow_error _ _ (exceptMap_error _ _ _ hr)

/-- Column selection fails only with a KeyError. -/
theorem selecionarColunas_error (fs : List String) (r : Row) (s : String)
    (h : selecionarColunas fs r = Except.error s) : s = msgKeyError := by
  unfold selecionarColunas at h
  rcases mapEx_error _ _ _ h with ⟨c, _, hc⟩
  rcases hget : getVal r c with _ | v
  · rw [hget] at hc
    simp only [Except.error.injEq] at hc
    exact hc.symm
  · rw [hget] at hc
    simp at hc

/-- Column ordering fails only with a KeyError. -/
theorem ordenarColunas_error (m : Modelo) (df : List Row) (s : String)
    (h : ordenarColunas m df = Except.error s) : s = msgKeyError := by
  unfold ordenarColunas at h
  split at h
  · rcases mapEx_error _ _ _ h with ⟨r, _, hr⟩
    exact selecionarColunas_error _ _ _ hr
  · simp at h

/-- `round(…, 2)` fails only with a TypeError. -/
theorem round2V_error (v : Val) (s : String) (h : round2V v = Except.error s) :
    s = msgTypeError := by
  cases v with
  | num q => simp [round2V] at h
  | nan => simp [round2V] at h
  | str t =>
    simp only [round2V, Except.error.injEq] at h
    exact h.symm

/-- Result assembly fails only with a KeyError or TypeError. -/
theorem montarResultado_error (r : Row) (p : String) (s : String)
    (h : montarResultado r p = Except.error s) : s = msgKeyError ∨ s = msgTypeError := by
  unfold montarResultado at h
  split at h
  · simp only [Except.error.injEq] at h
    exact Or.inl h.symm
  · split at h
    · rename_i he
      simp only [Except.error.injEq] at h
      subst h
      exact Or.inr (round2V_error _ _ he)
    · split at h
      · simp only [Except.error.injEq] at h
        exact Or.inl h.symm
      · simp at h

/-- The row pipeline never fails with the bad-input-shape message. -/
theorem preverLinhas_error (m : Modelo) (df0 : List Row) (s : String)
    (h : preverLinhas m df0 = Except.error s) : s ≠ msgEntradaInvalida := by
  unfold preverLinhas at h
  split at h
  · rename_i he
    simp only [Except.error.injEq] at h
    subst h
    rcases calcular_imc_error _ _ he with h1 | h1 <;> (subst h1; decide)
  · split at h
    · rename_i he
      simp only [Except.error.injEq] at h
      subst h
      have h1 := calcular_estilo_error _ _ he
      subst h1
      decide
    · split at h
      · rename_i he
        simp only [Except.error.injEq] at h
        subst h
        have h1 := ordenarColunas_error _ _ _ he
        subst h1
        decide
      · rcases mapEx_error _ _ _ h with ⟨pr, _, hpr⟩
        rcases montarResultado_error _ _ _ hpr with h1 | h1 <;> (subst h1; decide)

-- ---------------------------------------------------------------------
-- Claim C9: bad input shape
-- ---------------------------------------------------------------------

/-- C9: `prever_obesidade` raises the bad-input-shape error exactly when
its argument is not a DataFrame, not a dict and not a list of dicts; no
accepted container type ever produces that error. -/
theorem c9_forma_entrada :
    ∀ (m : Modelo) (e : Entrada),
      prever_obesidade m e = Except.error msgEntradaInvalida ↔ e = Entrada.other := by
  intro m e
  constructor
  · intro h
    cases e with
    | other => rfl
    | df rows =>
      exfalso
      simp only [prever_obesidade, toDf] at h
      split at h
      · rename_i he
        simp only [Except.error.injEq] at h
        exact preverLinhas_error _ _ _ he h
      · simp at h
    | dict r =>
      exfalso
      simp only [prever_obesidade, toDf] at h
      split at h
      · rename_i he
        simp only [Except.error.injEq] at h
        exact preverLinhas_error _ _ _ he h
      · simp at h
    | list rows =>
      exfalso
      simp only [prever_obesidade, toDf] at h
      split at h
      · rename_i he
        simp only [Except.error.injEq] at h
        exact preverLinhas_error _ _ _ he h
      · simp at h
  · intro h
    subst h
    rfl

/-- Witness for C9: the error fires on a non-accepted input. -/
theorem c9_forma_entrada_witness :
    prever_obesidade modeloNormal Entrada.other = Except.error msgEntradaInvalida :=
  (c9_forma_entrada modeloNormal Entrada.other).mpr rfl

-- ---------------------------------------------------------------------
-- Index-wise lemmas for claim C8
-- ---------------------------------------------------------------------

/-- A successful `mapEx` preserves the length. -/
theorem mapEx_ok_length {α β : Type} (f : α → Except String β) (l : List α) (ys : List β)
    (h : mapEx f l = Except.ok ys) : ys.length = l.length := by
  induction l generalizing ys with
  | nil =>
    unfold mapEx at h
    simp only [Except.ok.injEq] at h
    subst h
    rfl
  | cons a as ih =>
    unfold mapEx at h
    split at h
    · simp at h
    · split at h
      · simp at h
      · rename_i ys1 hys1
        simp only [Except.ok.injEq] at h
        subst h
        simp [ih ys1 hys1]

/-- A successful `mapEx` acts index-wise. -/
theorem mapEx_ok_get {α β : Type} (f : α → Except String β) (l : List α) (ys : List β)
    (h : mapEx f l = Except.ok ys) :
    ∀ i (h1 : i < l.length) (h2 : i < ys.length),
      f (l.get ⟨i, h1⟩) = Except.ok (ys.get ⟨i, h2⟩) := by
  induction l generalizing ys with
  | nil =>
    intro i h1 h2
    simp at h1
  | cons a as ih =>
    unfold mapEx at h
    split at h
    · simp at h
    · rename_i y hy
      split at h
      · simp at h
      · rename_i ys1 hys1
        simp only [Except.ok.injEq] at h
        subst h
        intro i h1 h2
        cases i with
        | zero => simpa using hy
        | succ n =>
          exact ih ys1 hys1 n (Nat.lt_of_succ_lt_succ h1) (Nat.lt_of_succ_lt_succ h2)

/-- `calcular_imc` succeeds index-wise: each output row is the
corresponding input row through `imcRowF b`, for a single flag `b`. -/
theorem calcular_imc_pointwise (df df1 : List Row) (h : calcular_imc df = Except.ok df1) :
    ∃ b : Bool, df1.length = df.length ∧
      ∀ i (h1 : i < df.length) (h2 : i < df1.length),
        imcRowF b (df.get ⟨i, h1⟩) = Except.ok (df1.get ⟨i, h2⟩) := by
  unfold calcular_imc at h
  split at h
  · simp only [Except.ok.injEq] at h
    subst h
    exact ⟨true, rfl, fun i h1 h2 => rfl⟩
  · exact ⟨false, mapEx_ok_length _ _ _ h, mapEx_ok_get _ _ _ h⟩

/-- `calcular_estilo` succeeds index-wise. -/
theorem calcular_estilo_pointwise (df df2 : List Row)
    (h : calcular_estilo df = Except.ok df2) :
    ∃ b : Bool, df2.length = df.length ∧
      ∀ i (h1 : i < df.length) (h2 : i < df2.length),
        estiloRowF b (df.get ⟨i, h1⟩) = Except.ok (df2.get ⟨i, h2⟩) := by
  unfold calcular_estilo at h
  split at h
  · simp only [Except.ok.injEq] at h
    subst h
    exact ⟨true, rfl, fun i h1 h2 => rfl⟩
  · exact ⟨false, mapEx_ok_length _ _ _ h, mapEx_ok_get _ _ _ h⟩

/-- Column ordering succeeds index-wise. -/
theorem ordenarColunas_pointwise (m : Modelo) (df dfP : List Row)
    (h : ordenarColunas m df = Except.ok dfP) :
    dfP.length = df.length ∧
      ∀ i (h1 : i < df.length) (h2 : i < dfP.length),
        ordenarRow m (df.get ⟨i, h1⟩) = Except.ok (dfP.get ⟨i, h2⟩) := by
  unfold ordenarColunas at h
  split at h
  · rename_i fs hfs
    refine ⟨mapEx_ok_length _ _ _ h, fun i h1 h2 => ?_⟩
    have hg := mapEx_ok_get _ _ _ h i h1 h2
    simpa [ordenarRow, hfs] using hg
  · rename_i hfs
    simp only [Except.ok.injEq] at h
    subst h
    exact ⟨rfl, fun i h1 h2 => by simp [ordenarRow, hfs]⟩

/-- The row pipeline succeeds index-wise: there are flags `b1 b2` (whether
the frame already had the BMI / lifestyle columns) such that the i-th
result is the i-th input row through `preverRow`. -/
theorem preverLinhas_pointwise (m : Modelo) (df0 : List Row) (rs : List Resultado)
    (h : preverLinhas m df0 = Except.ok rs) :
    ∃ b1 b2 : Bool, rs.length = df0.length ∧
      ∀ i (h1 : i < df0.length) (h2 : i < rs.length),
        preverRow m b1 b2 (df0.get ⟨i, h1⟩) = Except.ok (rs.get ⟨i, h2⟩) := by
  unfold preverLinhas at h
  split at h
  · simp at h
  · rename_i df1 hdf1
    split at h
    · simp at h
    · rename_i df2 hdf2
      split at h
      · simp at h
      · rename_i dfP hdfP
        rcases calcular_imc_pointwise _ _ hdf1 with ⟨b1, hlen1, hp1⟩
        rcases calcular_estilo_pointwise _ _ hdf2 with ⟨b2, hlen2, hp2⟩
        rcases ordenarColunas_pointwise _ _ _ hdfP with ⟨hlenP, hpP⟩
        have hlenS : ((df2.map renomearRow).map aplicarSchemaRow).length = df2.length := by
          simp
        have hlenzip : (df2.zip (dfP.map m.predict)).length = df2.length := by
          simp only [List.length_zip, List.length_map, hlenP, hlenS, Nat.min_self]
        have hlenrs := mapEx_ok_length _ _ _ h
        refine ⟨b1, b2, ?_, ?_⟩
        · rw [hlenrs, hlenzip, hlen2, hlen1]
        · intro i h1 h2
          have hi1 : i < df1.length := by rw [hlen1]; exact h1
          have hi2 : i < df2.length := by rw [hlen2]; exact hi1
          have hiS : i < ((df2.map renomearRow).map aplicarSchemaRow).length := by
            rw [hlenS]; exact hi2
          have hiP : i < dfP.length := by rw [hlenP, hlenS]; exact hi2
          have hizip : i < (df2.zip (dfP.map m.predict)).length := by
            rw [hlenzip]; exact hi2
          have hmont := mapEx_ok_get _ _ _ h i hizip h2
          have hzipget : (df2.zip (dfP.map m.predict)).get ⟨i, hizip⟩ =
              (df2.get ⟨i, hi2⟩, m.predict (dfP.get ⟨i, hiP⟩)) := by
            simp [List.get_eq_getElem, List.getElem_zip, List.getElem_map]
          rw [hzipget] at hmont
          have h1imc := hp1 i h1 hi1
          have h2est := hp2 i hi1 hi2
          have hSget : ((df2.map renomearRow).map aplicarSchemaRow).get ⟨i, hiS⟩ =
              aplicarSchemaRow (renomearRow (df2.get ⟨i, hi2⟩)) := by
            simp [List.get_eq_getElem, List.getElem_map]
          have hPsel := hpP i hiS hiP
          rw [hSget] at hPsel
          simp only [preverRow, h1imc, h2est, hPsel]
          exact hmont

-- ---------------------------------------------------------------------
-- Claim C8: batch order and single-vs-batch packaging
-- ---------------------------------------------------------------------

/-- C8: a successful run on a list of N records produces results in input
order — the i-th result is computed from the i-th input row — packaged as
a bare single Result when N = 1 and as a list of N Results otherwise. -/
theorem c8_lote_ordem :
    ∀ (m : Modelo) (rows : List Row) (out : Saida),
      prever_obesidade m (Entrada.list rows) = Except.ok out →
      ∃ (rs : List Resultado) (b1 b2 : Bool),
        rs.length = rows.length ∧
        (∀ i (h1 : i < rows.length) (h2 : i < rs.length),
          preverRow m b1 b2 (rows.get ⟨i, h1⟩) = Except.ok (rs.get ⟨i, h2⟩)) ∧
        (rows.length = 1 → ∃ r0, rs = [r0] ∧ out = Saida.single r0) ∧
        (rows.length ≠ 1 → out = Saida.batch rs) := by
  intro m rows out h
  simp only [prever_obesidade, toDf] at h
  split at h
  · simp at h
  · rename_i rs hrs
    simp only [Except.ok.injEq] at h
    subst h
    rcases preverLinhas_pointwise _ _ _ hrs with ⟨b1, b2, hlen, hp⟩
    refine ⟨rs, b1, b2, hlen, hp, ?_, ?_⟩
    · intro hone
      have hrs1 : rs.length = 1 := by rw [hlen]; exact hone
      rcases List.length_eq_one.mp hrs1 with ⟨r0, hr0⟩
      subst hr0
      exact ⟨r0, rfl, rfl⟩
    · intro hne
      have hrsne : rs.length ≠ 1 := by rw [hlen]; exact hne
      rcases rs with _ | ⟨a, _ | ⟨b, t⟩⟩
      · rfl
      · exact absurd rfl hrsne
      · rfl

/-- Witness for C8: a concrete two-row batch through the stub model. -/
theorem c8_lote_ordem_witness :
    ∃ (rs : List Resultado) (b1 b2 : Bool),
      rs.length = ([linhaA, linhaB] : List Row).length ∧
      (∀ i (h1 : i < ([linhaA, linhaB] : List Row).length) (h2 : i < rs.length),
        preverRow modeloNormal b1 b2 (([linhaA, linhaB] : List Row).get ⟨i, h1⟩) =
          Except.ok (rs.get ⟨i, h2⟩)) ∧
      (([linhaA, linhaB] : List Row).length = 1 → ∃ r0, rs = [r0] ∧
        Saida.batch [⟨"Normal_Weight", "Peso Normal", Val.num 20, Val.str "Saudável"⟩,
          ⟨"Normal_Weight", "Peso Normal", Val.num 31, Val.str "Não Saudável"⟩] =
          Saida.single r0) ∧
      (([linhaA, linhaB] : List Row).length ≠ 1 →
        Saida.batch [⟨"Normal_Weight", "Peso Normal", Val.num 20, Val.str "Saudável"⟩,
          ⟨"Normal_Weight", "Peso Normal", Val.num 31, Val.str "Não Saudável"⟩] =
          Saida.batch rs) := by
  refine c8_lote_ordem modeloNormal [linhaA, linhaB]
    (Saida.batch [⟨"Normal_Weight", "Peso Normal", Val.num 20, Val.str "Saudável"⟩,
      ⟨"Normal_Weight", "Peso Normal", Val.num 31, Val.str "Não Saudável"⟩]) ?_
  have h20 : round2V (Val.num 20) = Except.ok (Val.num 20) := by
    have := round2V_int 20
    norm_num at this
    exact this
  have h31 : round2V (Val.num 31) = Except.ok (Val.num 31) := by
    have := round2V_int 31
    norm_num at this
    exact this
  simp [prever_obesidade, toDf, preverLinhas, calcular_imc, calcular_estilo, temColuna,
    getVal, mapEx, ordenarColunas, aplicarSchemaRow, SCHEMA_NUMERICAS, SCHEMA_CATEGORIAS,
    aplicarCategorico, aplicarNumerico, renomearRow, RENAME_MAP, montarResultado, h20, h31,
    traduzir, TRADUCAO_TARGET, toNumericVal, modeloNormal, List.find?, linhaA, linhaB]
